import Mathlib

/-!
Verification of the record-validation model (`src/main.py`, pydantic v1 API)
and the variadic-argument demo (`src/args_kwargs.py`).

The Python code is shallowly embedded: each pydantic model becomes a Lean
structure plus an explicit constructor function returning `Except String _`
(construction either yields a validated record or a validation error), and
each validator becomes a Lean function translated from the Python source.
Library behaviour of pydantic v1 that the source relies on implicitly
(default `Extra.ignore`, default mutability, `SecretStr` masking,
`validate_assignment` semantics) is modelled where a claim depends on it and
documented at the definition.

Conventions:
* Python `str` is `String`; Python `int` is `Int`; Python `float` values are
  modelled as `Rat` (the program only compares and copies them, never does
  float arithmetic, so the ordered-field fragment used is exact).
* `datetime.date` / `datetime.datetime` are `PyDate` / `PyDateTime`
  (only the fields the program reads).
* Python `str.isdigit` is modelled over ASCII digits.
-/

/-- Calendar date as used by `datetime.date`: the program reads `year`,
`month` and `day` only. -/
structure PyDate where
  year : Int
  month : Nat
  day : Nat
deriving DecidableEq, Repr

/-- Timestamp as used by `datetime.datetime`: the program reads `.year` only,
but we keep the date part for faithfulness. -/
structure PyDateTime where
  year : Int
  month : Nat
  day : Nat
deriving DecidableEq, Repr

/-- The `Gender(str, Enum)` enumeration from `src/main.py`. -/
inductive Gender where
  | male
  | female
  | other
deriving DecidableEq, Repr

/-- Textual label of a `Gender` value (its `str` value in Python). -/
def Gender.label : Gender → String
  | .male => "male"
  | .female => "female"
  | .other => "other"

/-! ### Subject -/

/-- The `Subject` model: `name: str`, `code: str`,
`credits: int = Field(ge=1, le=6)`. -/
structure Subject where
  name : String
  code : String
  credits : Int
deriving DecidableEq, Repr

/-- Construction of a `Subject`. The only constraint in the schema is
`Field(ge=1, le=6)` on `credits`; pydantic rejects values outside the
inclusive range with a validation error. -/
def Subject.mk? (name code : String) (credits : Int) : Except String Subject :=
  if 1 ≤ credits ∧ credits ≤ 6 then
    .ok { name := name, code := code, credits := credits }
  else
    .error "credits: ensure this value is in the range 1 to 6"

/-- A single attribute assignment to a `Subject` field. -/
inductive SubjectField where
  | name (v : String)
  | code (v : String)
  | credits (v : Int)

/-- Attribute assignment on a constructed `Subject`. `Subject` declares no
`Config`, so the pydantic v1 defaults apply: `allow_mutation = True` and
`validate_assignment = False` — the assignment stores the new value with no
validation at all. -/
def Subject.assign (s : Subject) : SubjectField → Subject
  | .name v => { s with name := v }
  | .code v => { s with code := v }
  | .credits v => { s with credits := v }

/-! ### Address -/

/-- The `Address` model: four free-text fields plus `country` defaulting to
`"USA"`. No validators. -/
structure Address where
  street : String
  city : String
  state : String
  zip_code : String
  country : String := "USA"
deriving DecidableEq, Repr

/-! ### EmergencyContact -/

/-- The `EmergencyContact` model: `name`, `relationship`, `phone`, with a
`@validator` on `phone`. -/
structure EmergencyContact where
  name : String
  relationship : String
  phone : String
deriving DecidableEq, Repr

/-- Remove every hyphen from a character list. -/
def removeHyphens : List Char → List Char
  | [] => []
  | c :: rest => if c = '-' then removeHyphens rest else c :: removeHyphens rest

/-- Python `v.replace('-', '')` for the single-character pattern `'-'`:
remove every hyphen. -/
def pyReplaceHyphen (s : String) : String :=
  String.mk (removeHyphens s.data)

/-- Python `str.isdigit`: true iff the string is nonempty and every character
is a digit (modelled over ASCII digits). -/
def pyIsdigit (s : String) : Bool :=
  !s.data.isEmpty && s.data.all Char.isDigit

/-- The `validate_phone` validator:
`if not v.replace('-', '').isdigit(): raise ValueError(...)`. -/
def validate_phone (v : String) : Except String String :=
  if !pyIsdigit (pyReplaceHyphen v) then
    .error "Phone must contain only digits and hyphens"
  else
    .ok v

/-- Construction of an `EmergencyContact`: the two free-text fields are
unconstrained and `phone` runs `validate_phone`. -/
def EmergencyContact.mk? (name relationship phone : String) :
    Except String EmergencyContact :=
  match validate_phone phone with
  | .ok p => .ok { name := name, relationship := relationship, phone := p }
  | .error e => .error e

/-! ### Generic helpers -/

/-- Whether an `Except` result is a success. -/
def isOkE {ε α : Type} : Except ε α → Bool
  | .ok _ => true
  | .error _ => false

theorem isOkE_ok {ε α : Type} (a : α) : isOkE (ε := ε) (.ok a) = true := rfl

theorem isOkE_error {ε α : Type} (e : ε) : isOkE (α := α) (.error e) = false := rfl

/-! ### Character-level lemma for the phone validator -/

/-- A character allowed by the spec's reading of the phone rule: a digit or a
hyphen. -/
def digitOrHyphen (c : Char) : Bool := c.isDigit || c = '-'

theorem removeHyphens_eq_filter (l : List Char) :
    removeHyphens l = l.filter (fun c => c ≠ '-') := by
  induction l with
  | nil => rfl
  | cons c l ih =>
    by_cases hc : c = '-' <;> simp [removeHyphens, List.filter_cons, hc, ih]

theorem removeHyphens_all (l : List Char) :
    (removeHyphens l).all Char.isDigit = l.all digitOrHyphen := by
  induction l with
  | nil => rfl
  | cons c l ih =>
    by_cases hc : c = '-'
    · subst hc
      simpa [removeHyphens, digitOrHyphen] using ih
    · simp [removeHyphens, digitOrHyphen, hc, ih]

theorem removeHyphens_nonempty (l : List Char)
    (h : l.all digitOrHyphen = true) :
    (!(removeHyphens l).isEmpty) = l.any Char.isDigit := by
  induction l with
  | nil => rfl
  | cons c l ih =>
    rw [List.all_cons, Bool.and_eq_true] at h
    by_cases hc : c = '-'
    · subst hc
      have hdig : ('-').isDigit = false := by decide
      simpa [removeHyphens, hdig] using ih h.2
    · have hdig : c.isDigit = true := by
        have := h.1
        simpa [digitOrHyphen, hc] using this
      simp [removeHyphens, hc, hdig]

theorem phone_filter_chars (l : List Char) :
    ((!(removeHyphens l).isEmpty) && (removeHyphens l).all Char.isDigit) =
    (l.all digitOrHyphen && l.any Char.isDigit) := by
  rw [removeHyphens_all]
  cases hall : l.all digitOrHyphen
  · simp
  · simp [removeHyphens_nonempty l hall]

/-- Success condition of `EmergencyContact.mk?` in terms of the phone's
characters. -/
theorem emergencyContact_mk_isOk (name relationship phone : String) :
    isOkE (EmergencyContact.mk? name relationship phone) =
      (phone.data.all digitOrHyphen && phone.data.any (fun c => c.isDigit)) := by
  unfold EmergencyContact.mk? validate_phone pyIsdigit pyReplaceHyphen
  rw [← phone_filter_chars]
  cases h : ((!(removeHyphens phone.data).isEmpty) &&
      (removeHyphens phone.data).all Char.isDigit) <;>
    simp_all [isOkE]

/-! ### Claims about Subject and EmergencyContact (C1, C2, C8) -/

/-- C1, counterexample: the claim "construction succeeds iff the phone
contains only digits and hyphens" is false at `phone = "-"`: the string
consists only of hyphens (so it contains only digits and hyphens), yet
`"-".replace('-','') = ""` and `"".isdigit()` is `False` in Python, so the
validator raises and construction fails. -/
theorem emergencyContact_only_hyphens_rejected :
    ¬ ((isOkE (EmergencyContact.mk? "Robert Smith" "Father" "-") = true) ↔
        ("-".data.all digitOrHyphen = true)) := by
  decide

/-- C1 (amended): constructing an `EmergencyContact` succeeds iff the phone
consists only of digits and hyphens AND contains at least one digit (the
latter because Python's `isdigit` is false on the empty string, so a phone
that is empty or all hyphens is rejected). -/
theorem emergencyContact_phone_iff (name relationship phone : String) :
    isOkE (EmergencyContact.mk? name relationship phone) = true ↔
      (phone.data.all digitOrHyphen = true ∧
        phone.data.any (fun c => c.isDigit) = true) := by
  rw [emergencyContact_mk_isOk]
  exact Bool.and_eq_true_iff

/-- C2: constructing a `Subject` with integer credits `c` succeeds iff
`1 ≤ c ≤ 6` (the `Field(ge=1, le=6)` constraint), for any name and code. -/
theorem subject_credits_iff (name code : String) (credits : Int) :
    isOkE (Subject.mk? name code credits) = true ↔
      (1 ≤ credits ∧ credits ≤ 6) := by
  unfold Subject.mk?
  split <;> simp_all [isOkE]

/-- C8, counterexample: a successfully constructed `Subject` is not
immutable: `Subject` declares no `Config`, so pydantic v1's default
`allow_mutation = True` applies and attribute assignment replaces the field
(here `credits` is even set to the out-of-range value 9, since
`validate_assignment` is also off by default). -/
theorem subject_not_immutable :
    ¬ (Subject.assign { name := "Computer Science", code := "CS101", credits := 4 }
        (SubjectField.credits 9) =
      { name := "Computer Science", code := "CS101", credits := 4 }) := by
  decide

/-- C8 (amended): `Subject` is mutable, for every one of its fields:
assigning `name`, `code`, or `credits` (the latter with any integer, in or
out of range — no validation runs) replaces exactly the assigned field with
the given value and leaves the other two fields unchanged. -/
theorem subject_assign_field_frame (s : Subject) (v : String) (c : Int) :
    ((Subject.assign s (SubjectField.name v)).name = v ∧
      (Subject.assign s (SubjectField.name v)).code = s.code ∧
      (Subject.assign s (SubjectField.name v)).credits = s.credits) ∧
    ((Subject.assign s (SubjectField.code v)).code = v ∧
      (Subject.assign s (SubjectField.code v)).name = s.name ∧
      (Subject.assign s (SubjectField.code v)).credits = s.credits) ∧
    ((Subject.assign s (SubjectField.credits c)).credits = c ∧
      (Subject.assign s (SubjectField.credits c)).name = s.name ∧
      (Subject.assign s (SubjectField.credits c)).code = s.code) :=
  ⟨⟨rfl, rfl, rfl⟩, ⟨rfl, rfl, rfl⟩, ⟨rfl, rfl, rfl⟩⟩

/-! ### Student: field validators -/

/-- Modelled from the spec: "email matches valid email syntax". The
`EmailStr` validator lives in the pydantic library, not in `src/`; we model a
simplified syntactic check (exactly one at-sign, nonempty local part, domain
containing an inner dot). No claim depends on the fine structure of email
validity. -/
def isValidEmail (s : String) : Bool :=
  let cs := s.data
  let localPart := cs.takeWhile (fun c => c ≠ '@')
  let domain := (cs.dropWhile (fun c => c ≠ '@')).drop 1
  cs.count '@' = 1 && !localPart.isEmpty && !domain.isEmpty &&
    domain.any (fun c => c = '.') && domain.head? ≠ some '.' &&
    domain.getLast? ≠ some '.'

/-- Modelled from the spec: "website: optional URL" (`AnyUrl`). The validator
lives in the pydantic library, not in `src/`; we model the scheme check only.
No claim depends on the fine structure of URL validity. -/
def isValidUrl (s : String) : Bool :=
  (s.data.take 7 = "http://".data && s.data.length > 7) ||
    (s.data.take 8 = "https://".data && s.data.length > 8)

/-- The `confloat(ge=0.0, le=4.0)` constraint on `gpa`. -/
def gpaOk (g : Rat) : Bool := 0 ≤ g && g ≤ 4

/-- The `Optional[AnyUrl]` field: `None` passes, a value must be a valid
URL. -/
def websiteOk : Option String → Bool
  | none => true
  | some u => isValidUrl u

/-- The `Field(None, max_length=1000)` constraint on `notes` (Python `len` of
the text; absent notes pass). -/
def notesOk : Option String → Bool
  | none => true
  | some s => s.length ≤ 1000

/-- The `set_full_name` validator (`always=True`): keep a truthy supplied
value (`if v: return v`, so `None` and the empty string are both falsy and
trigger derivation), otherwise derive `f"{first_name} {last_name}"`.
`first_name` and `last_name` are plain `str` fields declared earlier, so they
are always present in `values`. -/
def set_full_name (v : Option String) (first_name last_name : String) :
    Option String :=
  match v with
  | some s => if s ≠ "" then some s else some (first_name ++ " " ++ last_name)
  | none => some (first_name ++ " " ++ last_name)

/-- Python tuple comparison `(a1, a2) < (b1, b2)`: lexicographic. -/
def tupLt (a b : Nat × Nat) : Bool :=
  a.1 < b.1 || (a.1 = b.1 && a.2 < b.2)

/-- The `calculate_age` validator (`always=True`): keep a supplied value,
otherwise derive
`today.year - dob.year - ((today.month, today.day) < (dob.month, dob.day))`
(the Python boolean counts as 0 or 1). -/
def calculate_age (v : Option Int) (dob : PyDate) (today : PyDate) :
    Option Int :=
  match v with
  | some a => some a
  | none =>
    some (today.year - dob.year -
      (if tupLt (today.month, today.day) (dob.month, dob.day) then 1 else 0))

/-- The `check_graduation_year` root validator raises iff
`values.get('graduation_year')` is truthy (present AND nonzero — Python
truthiness of `int`), `values.get('enrollment_date')` is truthy (a `datetime`
always is), and `graduation_year < enrollment_date.year`. -/
def graduationYearViolation (gy : Option Int) (ed : PyDateTime) : Bool :=
  match gy with
  | none => false
  | some g => g ≠ 0 && g < ed.year

/-! ### Student: construction -/

/-- The keyword arguments a caller passes to `Student(...)`, already at the
declared field types (the script passes typed literals and constructed
sub-models; pydantic v1 does not re-validate already-constructed model
instances). Optional fields and fields with defaults may be omitted. -/
structure StudentInput where
  id : Int
  first_name : String
  last_name : String
  full_name : Option String := none
  email : String
  password : String
  date_of_birth : PyDate
  age : Option Int := none
  gender : Gender
  active : Bool := true
  gpa : Rat := 0
  subjects : List Subject := []
  favorite_subjects : List String := []
  grades : List (String × Rat) := []
  address : Address
  phone : Option String := none
  website : Option String := none
  emergency_contacts : List EmergencyContact := []
  enrollment_date : Option PyDateTime := none
  graduation_year : Option Int := none
  notes : Option String := none
  tags : List String := []
deriving DecidableEq, Repr

/-- A validated `Student` record: the fields of the model after construction.
`password` holds the secret's raw value (`SecretStr` wraps it; masking
happens at serialization). `favorite_subjects` is a Python `set`; we model it
by its iteration order. -/
structure Student where
  id : Int
  first_name : String
  last_name : String
  full_name : Option String
  email : String
  password : String
  date_of_birth : PyDate
  age : Option Int
  gender : Gender
  active : Bool
  gpa : Rat
  subjects : List Subject
  favorite_subjects : List String
  grades : List (String × Rat)
  address : Address
  phone : Option String
  website : Option String
  emergency_contacts : List EmergencyContact
  enrollment_date : PyDateTime
  graduation_year : Option Int
  notes : Option String
  tags : List String
deriving DecidableEq, Repr

/-- The record a successful `Student(...)` call produces: every plain field
is copied, `full_name` and `age` run their `always=True` validators,
`enrollment_date` falls back to `datetime.now()` (the `default_factory`). -/
def mkValidatedStudent (today : PyDate) (now : PyDateTime)
    (inp : StudentInput) : Student :=
  { id := inp.id
    first_name := inp.first_name
    last_name := inp.last_name
    full_name := set_full_name inp.full_name inp.first_name inp.last_name
    email := inp.email
    password := inp.password
    date_of_birth := inp.date_of_birth
    age := calculate_age inp.age inp.date_of_birth today
    gender := inp.gender
    active := inp.active
    gpa := inp.gpa
    subjects := inp.subjects
    favorite_subjects := inp.favorite_subjects
    grades := inp.grades
    address := inp.address
    phone := inp.phone
    website := inp.website
    emergency_contacts := inp.emergency_contacts
    enrollment_date := inp.enrollment_date.getD now
    graduation_year := inp.graduation_year
    notes := inp.notes
    tags := inp.tags }

/-- Construction of a `Student`: per-field constraint checks in declaration
order (`email`, `gpa`, `website`, `notes`), then the `check_graduation_year`
root validator, then the validated record. pydantic v1 accumulates all field
errors before raising; we model the equivalent fail-fast pipeline, which
agrees on success/failure and on the resulting record. `today` is
`date.today()` (read by `calculate_age`) and `now` is `datetime.now()` (the
`enrollment_date` default factory). -/
def Student.validate (today : PyDate) (now : PyDateTime)
    (inp : StudentInput) : Except String Student :=
  if !isValidEmail inp.email then
    .error "email: value is not a valid email address"
  else if !gpaOk inp.gpa then
    .error "gpa: ensure this value is in the range 0.0 to 4.0"
  else if !websiteOk inp.website then
    .error "website: invalid or missing URL scheme"
  else if !notesOk inp.notes then
    .error "notes: ensure this value has at most 1000 characters"
  else if graduationYearViolation inp.graduation_year
      (inp.enrollment_date.getD now) then
    .error "Graduation year cannot be before enrollment year"
  else
    .ok (mkValidatedStudent today now inp)

/-- The conjunction of every check `Student.validate` performs. -/
def studentChecksOk (now : PyDateTime) (inp : StudentInput) : Bool :=
  isValidEmail inp.email && gpaOk inp.gpa && websiteOk inp.website &&
    notesOk inp.notes &&
    !graduationYearViolation inp.graduation_year (inp.enrollment_date.getD now)

theorem validate_eq_checks (today : PyDate) (now : PyDateTime)
    (inp : StudentInput) :
    isOkE (Student.validate today now inp) = studentChecksOk now inp := by
  unfold Student.validate studentChecksOk
  cases h1 : isValidEmail inp.email <;>
    cases h2 : gpaOk inp.gpa <;>
    cases h3 : websiteOk inp.website <;>
    cases h4 : notesOk inp.notes <;>
    cases h5 : graduationYearViolation inp.graduation_year
      (inp.enrollment_date.getD now) <;>
    simp [h1, h2, h3, h4, h5, isOkE]

theorem validate_ok_eq (today : PyDate) (now : PyDateTime)
    (inp : StudentInput) (s : Student)
    (h : Student.validate today now inp = .ok s) :
    s = mkValidatedStudent today now inp := by
  unfold Student.validate at h
  split at h <;> simp_all
  split at h <;> simp_all
  split at h <;> simp_all
  split at h <;> simp_all
  split at h <;> simp_all

/-! ### Concrete sample data (used by witnesses and counterexamples) -/

/-- A fixed value for `date.today()` used in concrete evaluations. -/
def sampleToday : PyDate := { year := 2024, month := 6, day := 1 }

/-- A fixed value for `datetime.now()` used in concrete evaluations. -/
def sampleNow : PyDateTime := { year := 2024, month := 6, day := 1 }

/-- The address literal from the script. -/
def sampleAddress : Address :=
  { street := "456 University Ave", city := "College Town", state := "NY",
    zip_code := "54321" }

/-- A keyword-argument set mirroring the script's `Student(...)` call (with a
whole-number gpa so that concrete evaluation stays in integers). -/
def sampleInput : StudentInput :=
  { id := 1001
    first_name := "Jane"
    last_name := "Smith"
    email := "jane.smith@university.edu"
    password := "SecurePassword123"
    date_of_birth := { year := 2000, month := 5, day := 15 }
    gender := Gender.female
    gpa := 3
    subjects := [⟨"Computer Science", "CS101", 4⟩, ⟨"Mathematics", "MATH201", 3⟩]
    favorite_subjects := ["Computer Science", "Physics"]
    grades := [("CS101", 95), ("MATH201", 88)]
    address := sampleAddress
    phone := some "555-123-4567"
    website := some "https://jane-smith.portfolio.dev"
    emergency_contacts := [⟨"Robert Smith", "Father", "555-987-6543"⟩]
    graduation_year := some 2024
    tags := ["honors", "scholarship"] }

/-! ### C3: graduation year versus enrollment year -/

/-- An enrollment timestamp in 2021. -/
def enrollment2021 : PyDateTime := { year := 2021, month := 9, day := 1 }

/-- Sample input with enrollment in 2021 and graduation year 0. -/
def gradZeroInput : StudentInput :=
  { sampleInput with
    graduation_year := some 0
    enrollment_date := some enrollment2021 }

/-- Sample input with enrollment in 2021 and graduation year 2020. -/
def grad2020Input : StudentInput :=
  { sampleInput with
    graduation_year := some 2020
    enrollment_date := some enrollment2021 }

/-- C3, counterexample: with `graduation_year = 0` and enrollment in 2021,
both fields are present and the graduation year precedes the enrollment
year, yet construction succeeds — `values.get('graduation_year')` is falsy
for the integer 0, so the root validator skips the comparison. This refutes
the claim that every such construction fails. -/
theorem student_graduation_zero_accepted :
    gradZeroInput.graduation_year = some 0 ∧
      (0 : Int) < (gradZeroInput.enrollment_date.getD sampleNow).year ∧
      isOkE (Student.validate sampleToday sampleNow gradZeroInput) = true := by
  refine ⟨rfl, by decide, by decide⟩

/-- C3 (amended): when `graduation_year` is present AND nonzero (so that it
is truthy in Python), construction fails if it precedes the enrollment year,
and when it does not precede the enrollment year the rule rejects nothing —
success is then exactly the conjunction of the remaining field checks. -/
theorem student_graduation_rule (today : PyDate) (now : PyDateTime)
    (inp : StudentInput) (g : Int)
    (hg : inp.graduation_year = some g) (hnz : g ≠ 0) :
    (g < (inp.enrollment_date.getD now).year →
      isOkE (Student.validate today now inp) = false) ∧
    ((inp.enrollment_date.getD now).year ≤ g →
      isOkE (Student.validate today now inp) =
        (isValidEmail inp.email && gpaOk inp.gpa && websiteOk inp.website &&
          notesOk inp.notes)) := by
  rw [validate_eq_checks]
  unfold studentChecksOk graduationYearViolation
  rw [hg]
  constructor
  · intro hlt
    simp [hnz, hlt]
  · intro hle
    simp [hnz, not_lt.mpr hle]

/-- C3 amended, witness: graduation year 2020 with enrollment in 2021 is
rejected, and the same input with graduation year 2024 is accepted. -/
theorem student_graduation_rule_witness :
    isOkE (Student.validate sampleToday sampleNow grad2020Input) = false ∧
      isOkE (Student.validate sampleToday sampleNow
        { grad2020Input with graduation_year := some 2024 }) = true := by
  constructor
  · exact (student_graduation_rule sampleToday sampleNow grad2020Input 2020
      rfl (by decide)).1 (by decide)
  · rw [(student_graduation_rule sampleToday sampleNow
      { grad2020Input with graduation_year := some 2024 } 2024
      rfl (by decide)).2 (by decide)]
    decide

/-! ### C6: derivation of full_name -/

/-- C6: whenever a `Student` construction succeeds and `full_name` was not
supplied, the resulting record's `full_name` is the concatenation of
`first_name`, one space, and `last_name` (the `set_full_name` validator with
`always=True`). -/
theorem student_full_name_derived (today : PyDate) (now : PyDateTime)
    (inp : StudentInput) (s : Student)
    (hfn : inp.full_name = none)
    (h : Student.validate today now inp = .ok s) :
    s.full_name = some (inp.first_name ++ " " ++ inp.last_name) := by
  rw [validate_ok_eq today now inp s h]
  simp [mkValidatedStudent, set_full_name, hfn]

/-- C6, witness: the sample construction (which leaves `full_name` unset)
derives `"Jane Smith"`. -/
theorem student_full_name_derived_witness :
    (mkValidatedStudent sampleToday sampleNow sampleInput).full_name =
      some ("Jane" ++ " " ++ "Smith") :=
  student_full_name_derived sampleToday sampleNow sampleInput
    (mkValidatedStudent sampleToday sampleNow sampleInput) rfl rfl

/-! ### C7: derivation of age -/

/-- Gregorian leap-year rule. -/
def isLeapYear (y : Int) : Bool :=
  (y % 4 = 0 && y % 100 ≠ 0) || y % 400 = 0

/-- Number of days in a month (1 = January, ..., 12 = December). -/
def daysInMonth (leap : Bool) (m : Nat) : Nat :=
  if m = 1 then 31 else if m = 2 then (if leap then 29 else 28)
  else if m = 3 then 31 else if m = 4 then 30 else if m = 5 then 31
  else if m = 6 then 30 else if m = 7 then 31 else if m = 8 then 31
  else if m = 9 then 30 else if m = 10 then 31 else if m = 11 then 30
  else 31

/-- The (month, day) pair one calendar day after the given (month, day) pair,
wrapping December 31 to January 1. -/
def nextMonthDay (leap : Bool) (md : Nat × Nat) : Nat × Nat :=
  if md.2 < daysInMonth leap md.1 then (md.1, md.2 + 1)
  else if md.1 = 12 then (1, 1)
  else (md.1 + 1, 1)

/-- A well-formed (month, day) pair. -/
def validMonthDay (leap : Bool) (md : Nat × Nat) : Bool :=
  1 ≤ md.1 && md.1 ≤ 12 && 1 ≤ md.2 && md.2 ≤ daysInMonth leap md.1

/-- Stepping one day forward increases a (month, day) pair in the
lexicographic (Python tuple) order, except across the year boundary. -/
theorem tupLt_nextMonthDay (leap : Bool) (md : Nat × Nat)
    (hv : validMonthDay leap md = true) (hne : ¬(md.1 = 12 ∧ md.2 = 31)) :
    tupLt md (nextMonthDay leap md) = true := by
  unfold validMonthDay at hv
  simp only [Bool.and_eq_true, decide_eq_true_eq] at hv
  obtain ⟨⟨⟨h1, h2⟩, h3⟩, h4⟩ := hv
  unfold nextMonthDay tupLt
  by_cases hd : md.2 < daysInMonth leap md.1
  · simp [hd]
  · by_cases hm : md.1 = 12
    · exfalso
      apply hne
      refine ⟨hm, ?_⟩
      have heq : md.2 = daysInMonth leap md.1 := le_antisymm h4 (not_lt.mp hd)
      rw [heq, hm]
      simp [daysInMonth]
    · simp [hd, hm]

/-- C7, counterexample: today December 31, 2024, date of birth January 1,
2000 — the birthday month/day is exactly one day after today's month/day and
lies in an earlier year, yet the derived age is `2024 - 2000 = 24`, the
plain year difference, NOT one less: the Python tuple comparison
`(12, 31) < (1, 1)` is false, so nothing is subtracted (and indeed 24 is the
correct age on that day). The claim's "one less than the difference of the
years" fails on the year-boundary wrap. -/
theorem student_age_wrap_counterexample :
    (((2000 : Int), (1 : Nat), (1 : Nat)) = ((2000 : Int), nextMonthDay
      (isLeapYear 2024) (12, 31))) ∧
    (2000 : Int) < 2024 ∧
    (calculate_age none { year := 2000, month := 1, day := 1 }
        { year := 2024, month := 12, day := 31 } = some 24) ∧
    (mkValidatedStudent { year := 2024, month := 12, day := 31 } sampleNow
        { sampleInput with date_of_birth := { year := 2000, month := 1, day := 1 } }).age =
      some 24 ∧
    Student.validate { year := 2024, month := 12, day := 31 } sampleNow
        { sampleInput with date_of_birth := { year := 2000, month := 1, day := 1 } } =
      .ok (mkValidatedStudent { year := 2024, month := 12, day := 31 } sampleNow
        { sampleInput with date_of_birth := { year := 2000, month := 1, day := 1 } }) ∧
    ¬((24 : Int) = 2024 - 2000 - 1) := by
  refine ⟨by decide, by decide, by decide, by decide, rfl, by decide⟩

/-- C7 (amended): if `age` is not supplied and the date of birth's
(month, day) is one calendar day after today's (month, day) WITHOUT wrapping
the year boundary (today is not December 31), and the birth year is earlier,
then a successful construction derives age one less than the year
difference. (On December 31 the derived age equals the plain year
difference, as the counterexample shows.) -/
theorem student_age_cutoff (today : PyDate) (now : PyDateTime)
    (inp : StudentInput) (s : Student)
    (hage : inp.age = none)
    (hmd : (inp.date_of_birth.month, inp.date_of_birth.day) =
      nextMonthDay (isLeapYear today.year) (today.month, today.day))
    (hvalid : validMonthDay (isLeapYear today.year)
      (today.month, today.day) = true)
    (hnw : ¬(today.month = 12 ∧ today.day = 31))
    (_hy : inp.date_of_birth.year < today.year)
    (h : Student.validate today now inp = .ok s) :
    s.age = some (today.year - inp.date_of_birth.year - 1) := by
  rw [validate_ok_eq today now inp s h]
  have hlt : tupLt (today.month, today.day)
      (inp.date_of_birth.month, inp.date_of_birth.day) = true := by
    rw [hmd]
    exact tupLt_nextMonthDay _ _ hvalid hnw
  simp [mkValidatedStudent, calculate_age, hage, hlt]

/-- C7 amended, witness: today June 1, 2024 and date of birth June 2, 2000
(one day after, no year wrap) gives age `2024 - 2000 - 1 = 23`. -/
theorem student_age_cutoff_witness :
    (mkValidatedStudent sampleToday sampleNow
      { sampleInput with date_of_birth := { year := 2000, month := 6, day := 2 } }).age =
      some (2024 - 2000 - 1) :=
  student_age_cutoff sampleToday sampleNow
    { sampleInput with date_of_birth := { year := 2000, month := 6, day := 2 } }
    (mkValidatedStudent sampleToday sampleNow
      { sampleInput with date_of_birth := { year := 2000, month := 6, day := 2 } })
    rfl (by decide) (by decide) (by decide) (by decide) rfl

/-! ### C5: assignment with validate_assignment = True -/

/-- One attribute assignment `student.field = value` at the declared field
type. -/
inductive FieldAssign where
  | id (v : Int)
  | first_name (v : String)
  | last_name (v : String)
  | full_name (v : Option String)
  | email (v : String)
  | password (v : String)
  | date_of_birth (v : PyDate)
  | age (v : Option Int)
  | gender (v : Gender)
  | active (v : Bool)
  | gpa (v : Rat)
  | subjects (v : List Subject)
  | favorite_subjects (v : List String)
  | grades (v : List (String × Rat))
  | address (v : Address)
  | phone (v : Option String)
  | website (v : Option String)
  | emergency_contacts (v : List EmergencyContact)
  | enrollment_date (v : PyDateTime)
  | graduation_year (v : Option Int)
  | notes (v : Option String)
  | tags (v : List String)

/-- The post root validators re-run by pydantic v1.10's `__setattr__` when
`validate_assignment = True`: here only `check_graduation_year`, applied to
the updated field dict. -/
def runPostRootValidators (s : Student) : Except String Student :=
  if graduationYearViolation s.graduation_year s.enrollment_date then
    .error "Graduation year cannot be before enrollment year"
  else
    .ok s

/-- Attribute assignment on a constructed `Student`. `Student.Config` sets
`validate_assignment = True`, so pydantic v1 re-runs the assigned field's
validators (with `values` holding the other current fields, which is how
`set_full_name` and `calculate_age` re-derive on a falsy assigned value) and
then the post root validators on the updated dict; on any error the
assignment raises and the record keeps all its previous field values. -/
def Student.assign (today : PyDate) (s : Student) :
    FieldAssign → Except String Student
  | .id v => runPostRootValidators { s with id := v }
  | .first_name v => runPostRootValidators { s with first_name := v }
  | .last_name v => runPostRootValidators { s with last_name := v }
  | .full_name v => runPostRootValidators
      { s with full_name := set_full_name v s.first_name s.last_name }
  | .email v =>
    if !isValidEmail v then .error "email: value is not a valid email address"
    else runPostRootValidators { s with email := v }
  | .password v => runPostRootValidators { s with password := v }
  | .date_of_birth v => runPostRootValidators { s with date_of_birth := v }
  | .age v => runPostRootValidators
      { s with age := calculate_age v s.date_of_birth today }
  | .gender v => runPostRootValidators { s with gender := v }
  | .active v => runPostRootValidators { s with active := v }
  | .gpa v =>
    if !gpaOk v then .error "gpa: ensure this value is in the range 0.0 to 4.0"
    else runPostRootValidators { s with gpa := v }
  | .subjects v => runPostRootValidators { s with subjects := v }
  | .favorite_subjects v => runPostRootValidators
      { s with favorite_subjects := v }
  | .grades v => runPostRootValidators { s with grades := v }
  | .address v => runPostRootValidators { s with address := v }
  | .phone v => runPostRootValidators { s with phone := v }
  | .website v =>
    if !websiteOk v then .error "website: invalid or missing URL scheme"
    else runPostRootValidators { s with website := v }
  | .emergency_contacts v => runPostRootValidators
      { s with emergency_contacts := v }
  | .enrollment_date v => runPostRootValidators { s with enrollment_date := v }
  | .graduation_year v => runPostRootValidators { s with graduation_year := v }
  | .notes v =>
    if !notesOk v then
      .error "notes: ensure this value has at most 1000 characters"
    else runPostRootValidators { s with notes := v }
  | .tags v => runPostRootValidators { s with tags := v }

/-- The record an accepted assignment produces: exactly the assigned field is
replaced (with `set_full_name` / `calculate_age` applied for the two derived
fields); every other field keeps its previous value. -/
def Student.applyField (today : PyDate) (s : Student) : FieldAssign → Student
  | .id v => { s with id := v }
  | .first_name v => { s with first_name := v }
  | .last_name v => { s with last_name := v }
  | .full_name v =>
    { s with full_name := set_full_name v s.first_name s.last_name }
  | .email v => { s with email := v }
  | .password v => { s with password := v }
  | .date_of_birth v => { s with date_of_birth := v }
  | .age v => { s with age := calculate_age v s.date_of_birth today }
  | .gender v => { s with gender := v }
  | .active v => { s with active := v }
  | .gpa v => { s with gpa := v }
  | .subjects v => { s with subjects := v }
  | .favorite_subjects v => { s with favorite_subjects := v }
  | .grades v => { s with grades := v }
  | .address v => { s with address := v }
  | .phone v => { s with phone := v }
  | .website v => { s with website := v }
  | .emergency_contacts v => { s with emergency_contacts := v }
  | .enrollment_date v => { s with enrollment_date := v }
  | .graduation_year v => { s with graduation_year := v }
  | .notes v => { s with notes := v }
  | .tags v => { s with tags := v }

/-- The constraint the assigned field's own validators impose — the same
check functions `Student.validate` runs at construction. -/
def assignFieldOk : FieldAssign → Bool
  | .email v => isValidEmail v
  | .gpa v => gpaOk v
  | .website v => websiteOk v
  | .notes v => notesOk v
  | _ => true

/-- C5: re-assigning any field of a `Student` re-runs validation: the
assignment succeeds exactly when the new value passes the same per-field
check used at construction and the re-run cross-field rule accepts the
updated record, and on success the result is the record with exactly that
field replaced (derived fields re-derived). On failure the assignment
returns an error and no updated record exists — the prior record `s` is
untouched (assignment is modelled as a pure function of `s`). -/
theorem runPostRoot_spec (t : Student) :
    (isOkE (runPostRootValidators t) =
      !graduationYearViolation t.graduation_year t.enrollment_date) ∧
    (∀ s', runPostRootValidators t = .ok s' → s' = t) := by
  unfold runPostRootValidators
  split <;> simp_all [isOkE]

theorem assign_checked_spec (c : Bool) (e : String) (t : Student) :
    (isOkE (if !c then .error e else runPostRootValidators t) =
      (c && !graduationYearViolation t.graduation_year t.enrollment_date)) ∧
    (∀ s', (if !c then Except.error e else runPostRootValidators t) = .ok s' →
      s' = t) := by
  cases c
  · simp [isOkE]
  · simpa using runPostRoot_spec t

theorem student_assign_revalidates (today : PyDate) (s : Student)
    (f : FieldAssign) :
    (isOkE (Student.assign today s f) =
      (assignFieldOk f &&
        !graduationYearViolation (Student.applyField today s f).graduation_year
          (Student.applyField today s f).enrollment_date)) ∧
    (∀ s', Student.assign today s f = .ok s' →
      s' = Student.applyField today s f) := by
  cases f <;>
    simp only [Student.assign, Student.applyField, assignFieldOk,
      Bool.true_and] <;>
    first
      | exact runPostRoot_spec _
      | exact assign_checked_spec _ _ _

/-- C5, witness: on the sample student, assigning gpa 2 succeeds and yields
the record with gpa 2; the characterization also evaluates: an out-of-range
gpa (5) makes `assignFieldOk` false, so by the first conjunct that
assignment returns an error. -/
theorem student_assign_revalidates_witness :
    (isOkE (Student.assign sampleToday
        (mkValidatedStudent sampleToday sampleNow sampleInput)
        (FieldAssign.gpa 5)) = false) ∧
    (Student.assign sampleToday
        (mkValidatedStudent sampleToday sampleNow sampleInput)
        (FieldAssign.gpa 2) =
      .ok (Student.applyField sampleToday
        (mkValidatedStudent sampleToday sampleNow sampleInput)
        (FieldAssign.gpa 2))) := by
  constructor
  · rw [(student_assign_revalidates sampleToday
      (mkValidatedStudent sampleToday sampleNow sampleInput)
      (FieldAssign.gpa 5)).1]
    decide
  · have h := (student_assign_revalidates sampleToday
      (mkValidatedStudent sampleToday sampleNow sampleInput)
      (FieldAssign.gpa 2)).2
    exact (h (Student.applyField sampleToday
      (mkValidatedStudent sampleToday sampleNow sampleInput)
      (FieldAssign.gpa 2)) rfl).symm ▸ rfl

/-! ### C4: unknown keyword arguments -/

/-- The pydantic `extra` policy for unknown keyword arguments. -/
inductive ExtraPolicy where
  | allow
  | ignore
  | forbid
deriving DecidableEq, Repr

/-- The four models of `src/main.py`. -/
inductive ModelKind where
  | subject
  | address
  | emergencyContact
  | student
deriving DecidableEq, Repr

/-- The field names each model declares. -/
def declaredFields : ModelKind → List String
  | .subject => ["name", "code", "credits"]
  | .address => ["street", "city", "state", "zip_code", "country"]
  | .emergencyContact => ["name", "relationship", "phone"]
  | .student =>
    ["id", "first_name", "last_name", "full_name", "email", "password",
      "date_of_birth", "age", "gender", "active", "gpa", "subjects",
      "favorite_subjects", "grades", "address", "phone", "website",
      "emergency_contacts", "enrollment_date", "graduation_year", "notes",
      "tags"]

/-- The `extra` policy of each model: only `Student` declares a `Config`
(with `extra = "forbid"`); the other three fall back to pydantic v1's
default, `Extra.ignore` — unknown keyword arguments are silently dropped. -/
def extraPolicy : ModelKind → ExtraPolicy
  | .student => .forbid
  | _ => .ignore

/-- Whether construction of the given model survives the unknown-keyword
stage when called with the given keyword names (it may of course still fail
later on the values themselves): under `forbid` every name must be declared;
under `ignore` and `allow` unknown names never fail construction. -/
def extraKeysAccepted (m : ModelKind) (keys : List String) : Bool :=
  match extraPolicy m with
  | .forbid => keys.all (fun k => (declaredFields m).contains k)
  | _ => true

/-- C4, counterexample: the claim "every record rejects unknown field names"
is false for `Subject`: it declares no `Config`, so the keyword `flavor` is
silently ignored and construction proceeds. -/
theorem subject_extra_key_ignored :
    ¬ (("flavor" ∈ ["name", "code", "credits", "flavor"] ∧
        "flavor" ∉ declaredFields ModelKind.subject) →
      extraKeysAccepted ModelKind.subject ["name", "code", "credits", "flavor"]
        = false) := by
  decide

/-- C4 (amended): only `Student` (whose `Config` sets `extra = "forbid"`)
rejects unknown field names at construction; for the other three models the
pydantic v1 default `Extra.ignore` applies and construction never fails on
account of an unknown name. -/
theorem extra_fields_policy (keys : List String) (k : String) (m : ModelKind)
    (hk : k ∈ keys) (hu : k ∉ declaredFields ModelKind.student)
    (hm : m ≠ ModelKind.student) :
    extraKeysAccepted ModelKind.student keys = false ∧
      extraKeysAccepted m keys = true := by
  constructor
  · unfold extraKeysAccepted extraPolicy
    rw [List.all_eq_false]
    exact ⟨k, hk, by simpa using hu⟩
  · cases m <;> simp [extraKeysAccepted, extraPolicy] at hm ⊢

/-- C4 amended, witness: passing the unknown keyword `flavor` to `Student`
fails construction, while the same keyword list is accepted by `Subject`. -/
theorem extra_fields_policy_witness :
    extraKeysAccepted ModelKind.student ["name", "code", "credits", "flavor"]
        = false ∧
      extraKeysAccepted ModelKind.subject
        ["name", "code", "credits", "flavor"] = true :=
  extra_fields_policy ["name", "code", "credits", "flavor"] "flavor"
    ModelKind.subject (by decide) (by decide) (by decide)

/-! ### C9: the variadic demo (`src/args_kwargs.py`) -/

/-- The body of `demo_function(*args, **kwargs)`: the lines it prints, in
order — a header, one indexed line per positional argument, a blank line
plus a header (from `print("\\nKeyword arguments ...")`), and one
`key: value` line per keyword argument in insertion order. Values are
represented by their displayed text. -/
def demo_function (args : List String) (kwargs : List (String × String)) :
    List String :=
  "Positional arguments (*args) received:" ::
    (args.enum.map (fun p => "  Argument " ++ toString p.1 ++ ": " ++ p.2) ++
      ("" :: "Keyword arguments (**kwargs) received:" ::
        kwargs.map (fun kv => "  " ++ kv.1 ++ ": " ++ kv.2)))

/-- One positional slot at a call site: either a single value or a spread
`*sequence`. -/
inductive CallArg where
  | pos (v : String)
  | star (vs : List String)

/-- One keyword slot at a call site: either a single `name=value` or a spread
`**mapping`. -/
inductive CallKw where
  | kw (k : String) (v : String)
  | starstar (m : List (String × String))

/-- Python's collection of the positional slots into the `args` tuple:
values in order, spreads flattened in place. -/
def collectArgs : List CallArg → List String
  | [] => []
  | .pos v :: rest => v :: collectArgs rest
  | .star vs :: rest => vs ++ collectArgs rest

/-- Python's collection of the keyword slots into the `kwargs` dict
(insertion order; the demo call has no duplicate names). -/
def collectKwargs : List CallKw → List (String × String)
  | [] => []
  | .kw k v :: rest => (k, v) :: collectKwargs rest
  | .starstar m :: rest => m ++ collectKwargs rest

/-- A call of `demo_function` with the given slots: collect, then run the
body. -/
def callDemoFunction (as : List CallArg) (ks : List CallKw) : List String :=
  demo_function (collectArgs as) (collectKwargs ks)

theorem collectArgs_map_pos (s : List String) :
    collectArgs (s.map CallArg.pos) = s := by
  induction s with
  | nil => rfl
  | cons v rest ih => simp [collectArgs, ih]

theorem collectKwargs_map_kw (m : List (String × String)) :
    collectKwargs (m.map (fun kv => CallKw.kw kv.1 kv.2)) = m := by
  induction m with
  | nil => rfl
  | cons kv rest ih => simp [collectKwargs, ih]

/-- C9: calling `demo_function` by spreading a sequence `s` into the
positional slots and a mapping `m` into the keyword slots
(`demo_function(*s, **m)`) prints exactly the same lines as passing the
elements of `s` individually as positional values and the entries of `m`
individually as named values. -/
theorem demo_unpacking_equiv (s : List String) (m : List (String × String)) :
    callDemoFunction [CallArg.star s] [CallKw.starstar m] =
      callDemoFunction (s.map CallArg.pos)
        (m.map (fun kv => CallKw.kw kv.1 kv.2)) := by
  unfold callDemoFunction
  rw [collectArgs_map_pos, collectKwargs_map_kw]
  simp [collectArgs, collectKwargs]

/-! ### C10: JSON serialization and the password secret -/

/-- JSON string literal (the concrete data serialized here contains no
characters needing escaping, so escaping is not modelled). -/
def jsonStr (s : String) : String := "\"" ++ s ++ "\""

/-- JSON rendering of an optional string: `null` when absent. -/
def jsonOptStr : Option String → String
  | none => "null"
  | some s => jsonStr s

/-- JSON rendering of an optional integer: `null` when absent. -/
def jsonOptInt : Option Int → String
  | none => "null"
  | some n => toString n

/-- Rendering of a numeric (Python float) value; decimal formatting is
abbreviated to an exact numerator/denominator form — it is a function of the
value only, which is all the serialization claims depend on. -/
def ratToJson (q : Rat) : String :=
  toString q.num ++ (if q.den = 1 then "" else "/" ++ toString q.den)

/-- Two-digit zero padding for month and day numbers. -/
def padZero2 (n : Nat) : String :=
  if n < 10 then "0" ++ toString n else toString n

/-- ISO rendering of a date, as pydantic's JSON encoder emits it. -/
def PyDate.isoString (d : PyDate) : String :=
  toString d.year ++ "-" ++ padZero2 d.month ++ "-" ++ padZero2 d.day

/-- ISO rendering of a timestamp (the time part is not modelled). -/
def PyDateTime.isoString (d : PyDateTime) : String :=
  toString d.year ++ "-" ++ padZero2 d.month ++ "-" ++ padZero2 d.day ++
    "T00:00:00"

/-- Modelled from the spec ("held as a write-only/opaque secret") and the
pydantic v1 library, which is not in `src/`: `.json()` encodes a `SecretStr`
through `str()`, whose value is `'**********' if self._secret_value else ''`
— ten asterisks for a nonempty secret, the empty string for an empty one.
The raw secret never appears. -/
def secretStrDisplay (s : String) : String :=
  if s ≠ "" then "**********" else ""

/-- JSON rendering of a list. -/
def jsonList {α : Type} (f : α → String) (l : List α) : String :=
  "[" ++ String.intercalate ", " (l.map f) ++ "]"

/-- JSON rendering of a nested `Subject`. -/
def jsonSubject (s : Subject) : String :=
  "\x7b\"name\": " ++ jsonStr s.name ++ ", \"code\": " ++ jsonStr s.code ++
    ", \"credits\": " ++ toString s.credits ++ "\x7d"

/-- JSON rendering of a nested `Address`. -/
def jsonAddress (a : Address) : String :=
  "\x7b\"street\": " ++ jsonStr a.street ++ ", \"city\": " ++ jsonStr a.city ++
    ", \"state\": " ++ jsonStr a.state ++ ", \"zip_code\": " ++
    jsonStr a.zip_code ++ ", \"country\": " ++ jsonStr a.country ++ "\x7d"

/-- JSON rendering of a nested `EmergencyContact`. -/
def jsonContact (c : EmergencyContact) : String :=
  "\x7b\"name\": " ++ jsonStr c.name ++ ", \"relationship\": " ++
    jsonStr c.relationship ++ ", \"phone\": " ++ jsonStr c.phone ++ "\x7d"

/-- JSON rendering of the grades mapping. -/
def jsonGrades (g : List (String × Rat)) : String :=
  "\x7b" ++ String.intercalate ", "
    (g.map (fun kv => jsonStr kv.1 ++ ": " ++ ratToJson kv.2)) ++ "\x7d"

/-- The textual serialization `student.json()` prints: every field in
declaration order, nested objects for the sub-models, and the password
rendered through `secretStrDisplay` (never raw). -/
def jsonStudent (s : Student) : String :=
  "\x7b\"id\": " ++ toString s.id ++
    ", \"first_name\": " ++ jsonStr s.first_name ++
    ", \"last_name\": " ++ jsonStr s.last_name ++
    ", \"full_name\": " ++ jsonOptStr s.full_name ++
    ", \"email\": " ++ jsonStr s.email ++
    ", \"password\": " ++ jsonStr (secretStrDisplay s.password) ++
    ", \"date_of_birth\": " ++ jsonStr s.date_of_birth.isoString ++
    ", \"age\": " ++ jsonOptInt s.age ++
    ", \"gender\": " ++ jsonStr s.gender.label ++
    ", \"active\": " ++ (if s.active then "true" else "false") ++
    ", \"gpa\": " ++ ratToJson s.gpa ++
    ", \"subjects\": " ++ jsonList jsonSubject s.subjects ++
    ", \"favorite_subjects\": " ++ jsonList jsonStr s.favorite_subjects ++
    ", \"grades\": " ++ jsonGrades s.grades ++
    ", \"address\": " ++ jsonAddress s.address ++
    ", \"phone\": " ++ jsonOptStr s.phone ++
    ", \"website\": " ++ jsonOptStr s.website ++
    ", \"emergency_contacts\": " ++ jsonList jsonContact s.emergency_contacts ++
    ", \"enrollment_date\": " ++ jsonStr s.enrollment_date.isoString ++
    ", \"graduation_year\": " ++ jsonOptInt s.graduation_year ++
    ", \"notes\": " ++ jsonOptStr s.notes ++
    ", \"tags\": " ++ jsonList jsonStr s.tags ++ "\x7d"

/-- The sample input with an empty password. -/
def emptyPwdInput : StudentInput := { sampleInput with password := "" }

/-- C10, counterexample: two successfully constructed students that differ
only in the password value — one empty, one not — serialize differently:
pydantic v1 renders an empty secret as `""` and a nonempty one as
`"**********"`, so the serialization is not identical across all password
values (it leaks whether the secret is empty). -/
theorem student_password_serialization_counterexample :
    emptyPwdInput = { sampleInput with password := "" } ∧
      Student.validate sampleToday sampleNow emptyPwdInput =
        .ok (mkValidatedStudent sampleToday sampleNow emptyPwdInput) ∧
      Student.validate sampleToday sampleNow sampleInput =
        .ok (mkValidatedStudent sampleToday sampleNow sampleInput) ∧
      ¬(jsonStudent (mkValidatedStudent sampleToday sampleNow emptyPwdInput) =
        jsonStudent (mkValidatedStudent sampleToday sampleNow sampleInput)) := by
  refine ⟨rfl, rfl, rfl, by decide⟩

/-- C10 (amended): for any two successfully constructed students whose
inputs agree on every field except the password, if both passwords are
nonempty then the two JSON serializations are identical: the password is
emitted as the fixed mask `"**********"`, never as the raw secret. (The
counterexample shows the empty/nonempty boundary is the only leak.) -/
theorem student_password_masked (today : PyDate) (now : PyDateTime)
    (inp : StudentInput) (p1 p2 : String) (s1 s2 : Student)
    (h1 : Student.validate today now { inp with password := p1 } = .ok s1)
    (h2 : Student.validate today now { inp with password := p2 } = .ok s2)
    (hp1 : p1 ≠ "") (hp2 : p2 ≠ "") :
    jsonStudent s1 = jsonStudent s2 := by
  rw [validate_ok_eq _ _ _ _ h1, validate_ok_eq _ _ _ _ h2]
  simp [mkValidatedStudent, jsonStudent, secretStrDisplay, hp1, hp2]

/-- C10 amended, witness: the sample student with password
`"SecurePassword123"` and the same student with password `"AnotherSecret"`
serialize to the same text. -/
theorem student_password_masked_witness :
    jsonStudent (mkValidatedStudent sampleToday sampleNow
        { sampleInput with password := "SecurePassword123" }) =
      jsonStudent (mkValidatedStudent sampleToday sampleNow
        { sampleInput with password := "AnotherSecret" }) :=
  student_password_masked sampleToday sampleNow sampleInput
    "SecurePassword123" "AnotherSecret"
    (mkValidatedStudent sampleToday sampleNow
      { sampleInput with password := "SecurePassword123" })
    (mkValidatedStudent sampleToday sampleNow
      { sampleInput with password := "AnotherSecret" })
    rfl rfl (by decide) (by decide)
